import Mathlib

/-!
Shallow embedding of the record-tracking logic of the File Allocation System
repository, covering:

- src/src/pages/ProcurementList.tsx : calculateStackNumbers,
  updateStackNumbersForFolder, saveBorrowChanges, filteredProcurements
  (filter + sort), paginatedProcurements, pagination controls;
- src/src/contexts/DataContext.tsx : validateUser, handleDeleteUser,
  toggleStatus.

Modelling conventions (all translated from the TypeScript source):

- JavaScript strings are Lean String; toLowerCase is modelled by
  String.toLower, includes by an explicit substring scan, localeCompare by
  code-point lexicographic comparison (the source never relies on a
  specific locale).
- Date strings are modelled by their epoch value (a Nat): the source only
  ever uses new Date(x).getTime(), which is monotone in the date.
- Optional numeric fields (stackNumber) are Option Nat; JavaScript
  truthiness of such a field (used at ProcurementList.tsx:130 and :378) is
  false exactly for undefined and 0.
- Array.prototype.sort with a comparator cmp is modelled by a stable
  insertion sort ordered by fun a b => cmp a b ≤ 0; for a comparator that
  is a total preorder this is exactly the (stable) result the runtime
  produces.
- Store mutations (updateProcurement, deleteUser, updateUser) are recorded
  as explicit write events; a write sequence is applied to a list of
  records by applyWrite. The component state `procurements` captured by a
  React closure is the snapshot argument: the store callbacks cannot
  rebind it during one handler run, so the renumbering pass inside
  saveBorrowChanges reads the pre-transition snapshot, exactly as the
  source does.
-/

namespace FileAlloc

/-- Record entity (Procurement in src/src/types), restricted to the fields the
verified operations read or write. -/
structure Procurement where
  id : String
  prNumber : String
  description : String
  cabinetId : String
  shelfId : String
  folderId : String
  status : String
  urgencyLevel : String
  dateAdded : Nat
  stackNumber : Option Nat
  borrowedBy : Option String
  division : Option String
  borrowedDate : Option Nat
  returnDate : Option Nat
deriving DecidableEq

/-- Filter criteria state of ProcurementList (the fields actually used by the
filter at ProcurementList.tsx:351-365; the multi-select status list is passed
separately, mirroring the separate statusFilters state). -/
structure ProcurementFilters where
  search : String
  cabinetId : String
  shelfId : String
  folderId : String
  urgencyLevel : String
deriving DecidableEq

/-- Check that the first list is an initial segment of the second. -/
def leadsWith : List Char → List Char → Bool
  | [], _ => true
  | _ :: _, [] => false
  | a :: as, b :: bs => a == b && leadsWith as bs

/-- Check that the first list occurs contiguously inside the second
(JavaScript String.prototype.includes on the underlying characters). -/
def occursIn (needle : List Char) : List Char → Bool
  | [] => leadsWith needle []
  | c :: rest => leadsWith needle (c :: rest) || occursIn needle rest

/-- JavaScript hay.includes(needle) for strings. -/
def strIncludes (hay needle : String) : Bool :=
  occursIn needle.data hay.data

/-- JavaScript String.prototype.toLowerCase, character by character (the data
handled by the app is ASCII). -/
def lowerStr (s : String) : String :=
  ⟨s.data.map Char.toLower⟩

/-- JavaScript String.prototype.endsWith. -/
def endsWithStr (s suffix : String) : Bool :=
  leadsWith suffix.data.reverse s.data.reverse

/-- Free-text clause of the filter (ProcurementList.tsx:352-354). -/
def matchesSearch (f : ProcurementFilters) (p : Procurement) : Bool :=
  strIncludes (lowerStr p.prNumber) (lowerStr f.search) ||
    strIncludes (lowerStr p.description) (lowerStr f.search)

/-- Cabinet clause of the filter (ProcurementList.tsx:356). -/
def matchesCabinet (f : ProcurementFilters) (p : Procurement) : Bool :=
  f.cabinetId == "" || f.cabinetId == "all_cabinets" || p.cabinetId == f.cabinetId

/-- Shelf clause of the filter (ProcurementList.tsx:357). -/
def matchesShelf (f : ProcurementFilters) (p : Procurement) : Bool :=
  f.shelfId == "" || f.shelfId == "all_shelves" || p.shelfId == f.shelfId

/-- Folder clause of the filter (ProcurementList.tsx:358). -/
def matchesFolder (f : ProcurementFilters) (p : Procurement) : Bool :=
  f.folderId == "" || f.folderId == "all_folders" || p.folderId == f.folderId

/-- Multi-select status clause (ProcurementList.tsx:361): an empty selection
passes every record. -/
def matchesStatus (statusFilters : List String) (p : Procurement) : Bool :=
  statusFilters.length == 0 || statusFilters.contains p.status

/-- Urgency clause of the filter (ProcurementList.tsx:363). -/
def matchesUrgency (f : ProcurementFilters) (p : Procurement) : Bool :=
  f.urgencyLevel == "" || f.urgencyLevel == "all_urgency" ||
    p.urgencyLevel == f.urgencyLevel

/-- Conjunction of all filter clauses (ProcurementList.tsx:365). -/
def matchesFilters (f : ProcurementFilters) (statusFilters : List String)
    (p : Procurement) : Bool :=
  matchesSearch f p && matchesCabinet f p && matchesShelf f p &&
    matchesFolder f p && matchesStatus statusFilters p && matchesUrgency f p

/-- Sort field state of ProcurementList (ProcurementList.tsx:118). -/
inductive SortField where
  | name
  | prNumber
  | date
  | stackNumber
deriving DecidableEq

/-- Sort direction state of ProcurementList (ProcurementList.tsx:119). -/
inductive SortDirection where
  | asc
  | desc
deriving DecidableEq

/-- Model of String.prototype.localeCompare: negative, zero or positive
according to code-point lexicographic order. -/
def localeCompare (a b : String) : Int :=
  if a < b then -1 else if b < a then 1 else 0

/-- Sort key for the stackNumber column: `a.stackNumber || 999`
(ProcurementList.tsx:378-379), so undefined and 0 both become 999. -/
def stackKey : Option Nat → Nat
  | none => 999
  | some n => if n == 0 then 999 else n

/-- Per-field comparison of the list sort (ProcurementList.tsx:367-381). -/
def fieldComparison (field : SortField) (a b : Procurement) : Int :=
  match field with
  | SortField.name => localeCompare a.description b.description
  | SortField.prNumber => localeCompare a.prNumber b.prNumber
  | SortField.date => (b.dateAdded : Int) - (a.dateAdded : Int)
  | SortField.stackNumber => (stackKey a.stackNumber : Int) - (stackKey b.stackNumber : Int)

/-- Direction adjustment of the comparison (ProcurementList.tsx:383). -/
def dirComparison (field : SortField) (dir : SortDirection) (a b : Procurement) : Int :=
  match dir with
  | SortDirection.asc => fieldComparison field a b
  | SortDirection.desc => - fieldComparison field a b

instance instDecProcLe (field : SortField) (dir : SortDirection) :
    DecidableRel (fun a b : Procurement => dirComparison field dir a b ≤ 0) :=
  fun _ _ => Int.decLe _ _

/-- The .sort call of filteredProcurements, as a stable sort ordered by the
comparator (ProcurementList.tsx:366-384). -/
def sortRecords (field : SortField) (dir : SortDirection)
    (l : List Procurement) : List Procurement :=
  List.insertionSort (fun a b => dirComparison field dir a b ≤ 0) l

/-- Filter followed by sort (ProcurementList.tsx:351-384). -/
def filteredProcurements (procs : List Procurement) (f : ProcurementFilters)
    (statusFilters : List String) (field : SortField) (dir : SortDirection) :
    List Procurement :=
  sortRecords field dir (procs.filter (matchesFilters f statusFilters))

/-- Fixed page size (ProcurementList.tsx:121). -/
def itemsPerPage : Nat := 20

/-- Page count Math.ceil(n / itemsPerPage) (ProcurementList.tsx:386). -/
def totalPages (n : Nat) : Nat :=
  (n + itemsPerPage - 1) / itemsPerPage

/-- The displayed slice filtered.slice((page-1)*size, page*size)
(ProcurementList.tsx:387-390). -/
def paginatedProcurements (l : List Procurement) (page : Nat) : List Procurement :=
  (l.drop ((page - 1) * itemsPerPage)).take itemsPerPage

/-- Target page of the Next button: Math.min(prev + 1, totalPages)
(ProcurementList.tsx:980). -/
def nextPageClick (cur total : Nat) : Nat :=
  min (cur + 1) total

/-- JavaScript truthiness of the optional stackNumber field. -/
def stackTruthy : Option Nat → Bool
  | none => false
  | some n => n != 0

/-- Numeric value of the optional stackNumber field where it is read after a
truthiness test (so the default is never observed). -/
def stackVal : Option Nat → Nat
  | none => 0
  | some n => n

/-- Comparator of calculateStackNumbers (ProcurementList.tsx:128-135): stack
numbers when both are truthy, otherwise dateAdded. -/
def calcCompare (a b : Procurement) : Int :=
  if stackTruthy a.stackNumber && stackTruthy b.stackNumber then
    (stackVal a.stackNumber : Int) - (stackVal b.stackNumber : Int)
  else
    (a.dateAdded : Int) - (b.dateAdded : Int)

instance instDecCalcLe :
    DecidableRel (fun a b : Procurement => calcCompare a b ≤ 0) :=
  fun _ _ => Int.decLe _ _

/-- The filter step of calculateStackNumbers (ProcurementList.tsx:126-127). -/
def archivedInFolder (procs : List Procurement) (folderId : String) : List Procurement :=
  procs.filter (fun p => p.folderId == folderId && p.status == "archived")

/-- The filter-and-sort steps of calculateStackNumbers
(ProcurementList.tsx:126-135). -/
def sortedArchived (procs : List Procurement) (folderId : String) : List Procurement :=
  List.insertionSort (fun a b => calcCompare a b ≤ 0) (archivedInFolder procs folderId)

/-- Sequential position assignment of the forEach at
ProcurementList.tsx:139-141: the element at offset i receives k + i. -/
def assignStackNumbers : List Procurement → Nat → List (String × Nat)
  | [], _ => []
  | p :: rest, k => (p.id, k) :: assignStackNumbers rest (k + 1)

/-- calculateStackNumbers (ProcurementList.tsx:124-144): the Map is modelled
as an association list in insertion order. -/
def calculateStackNumbers (procs : List Procurement) (folderId : String) :
    List (String × Nat) :=
  assignStackNumbers (sortedArchived procs folderId) 1

/-- A single updateProcurement call, identified by the payload shape used in
ProcurementList.tsx (status transition to borrowed, stack assignment, stack
clearing). -/
inductive ProcWrite where
  | borrow (id borrowedBy division : String) (now : Nat)
  | setStack (id : String) (n : Nat)
  | clearStack (id : String)
deriving DecidableEq

/-- Apply one updateProcurement call to the stored record collection: the
payload fields are merged into every record with the given id. -/
def applyWrite (procs : List Procurement) (w : ProcWrite) : List Procurement :=
  match w with
  | ProcWrite.borrow i bb dv now =>
      procs.map fun p =>
        if p.id == i then
          { p with
              status := "active"
              borrowedBy := some bb
              division := some dv
              borrowedDate := some now }
        else p
  | ProcWrite.setStack i n =>
      procs.map fun p => if p.id == i then { p with stackNumber := some n } else p
  | ProcWrite.clearStack i =>
      procs.map fun p => if p.id == i then { p with stackNumber := none } else p

/-- updateStackNumbersForFolder (ProcurementList.tsx:147-163) as the sequence
of store writes it issues, computed from the component snapshot: one setStack
per entry of the recomputed map, then one clearStack per snapshot-borrowed
record of the folder whose stackNumber is defined. -/
def updateStackNumbersForFolder (snapshot : List Procurement) (folderId : String) :
    List ProcWrite :=
  (calculateStackNumbers snapshot folderId).map (fun e => ProcWrite.setStack e.1 e.2) ++
    ((snapshot.filter (fun p => p.folderId == folderId && p.status == "active")).filter
      (fun p => p.stackNumber.isSome)).map (fun p => ProcWrite.clearStack p.id)

/-- Writes that only touch the stackNumber field (every write issued by
updateStackNumbersForFolder is of this shape). -/
def stackOnlyWrite : ProcWrite → Prop
  | ProcWrite.borrow _ _ _ _ => False
  | ProcWrite.setStack _ _ => True
  | ProcWrite.clearStack _ => True

/-- State of the borrow edit modal (ProcurementList.tsx:174-178). -/
structure BorrowEditModal where
  procurement : Procurement
  borrowedBy : String
  division : String
deriving DecidableEq

/-- saveBorrowChanges (ProcurementList.tsx:217-243): either the validation
error (no write issued) or the full sequence of writes, the status transition
first, then the renumbering pass computed from the snapshot. -/
def saveBorrowChanges (snapshot : List Procurement) (m : BorrowEditModal)
    (now : Nat) : Except String (List ProcWrite) :=
  if m.borrowedBy == "" || m.division == "" then
    Except.error "Please fill in all required fields"
  else
    Except.ok (ProcWrite.borrow m.procurement.id m.borrowedBy m.division now ::
      updateStackNumbersForFolder snapshot m.procurement.folderId)

/-- Stored collection after the saveBorrowChanges handler finishes, starting
from a store in sync with the component snapshot. -/
def runBorrow (snapshot : List Procurement) (m : BorrowEditModal) (now : Nat) :
    List Procurement :=
  match saveBorrowChanges snapshot m now with
  | Except.error _ => snapshot
  | Except.ok ws => ws.foldl applyWrite snapshot

/-- User entity (DataContext.tsx user management). -/
structure User where
  id : String
  name : String
  email : String
  password : String
  role : String
  status : String
deriving DecidableEq

/-- A store call issued by the user-management handlers. -/
inductive StoreCall where
  | delUser (id : String)
  | updUserStatus (id : String) (newStatus : String)
deriving DecidableEq

/-- Observable outcome of a user-management handler: the error message shown,
if any, and the store call issued, if any. -/
structure ActionResult where
  toastError : Option String
  storeCall : Option StoreCall
deriving DecidableEq

/-- handleDeleteUser (DataContext.tsx:1272-1288): the primordial admin check
runs on the record found by id, before the browser confirm and before any
deleteUser call. -/
def handleDeleteUser (users : List User) (id : String) (confirmAnswer : Bool) :
    ActionResult :=
  match users.find? (fun u => u.id == id) with
  | some u =>
      if u.email == "admin@gmail.com" then
        { toastError := some "Cannot delete the main Admin user.", storeCall := none }
      else if confirmAnswer then
        { toastError := none, storeCall := some (StoreCall.delUser id) }
      else
        { toastError := none, storeCall := none }
  | none =>
      if confirmAnswer then
        { toastError := none, storeCall := some (StoreCall.delUser id) }
      else
        { toastError := none, storeCall := none }

/-- toggleStatus (DataContext.tsx:1302-1312): the primordial admin check runs
before the updateUser call. -/
def toggleStatus (u : User) : ActionResult :=
  if u.email == "admin@gmail.com" then
    { toastError := some "Cannot change status of main Admin user.", storeCall := none }
  else
    { toastError := none,
      storeCall := some (StoreCall.updUserStatus u.id
        (if u.status == "active" then "inactive" else "active")) }

/-- Form data validated by validateUser. -/
structure UserForm where
  name : String
  email : String
  password : String
deriving DecidableEq

/-- The fixed punctuation set of the password rule, the character class of the
regex at DataContext.tsx:1224. -/
def specialCharacters : List Char :=
  ['!', '@', '#', '$', '%', '^', '&', '*', '(', ')', ',', '.', '?', '"', ':',
    Char.ofNat 123, Char.ofNat 125, '|', '<', '>']

/-- validateUser (DataContext.tsx:1198-1230): the first failing rule produces
its message; acceptance is the none result. -/
def validateUser (d : UserForm) : Option String :=
  if d.name == "" || d.email == "" || d.password == "" then
    some "Name, Email, and Password are required"
  else if !(endsWithStr (lowerStr d.email) "@gmail.com") then
    some "Email must be a @gmail.com address"
  else if d.password.data.length < 8 then
    some "Password must be at least 8 characters long"
  else if !(d.password.data.any Char.isUpper) then
    some "Password must contain at least one uppercase letter"
  else if !(d.password.data.any Char.isDigit) then
    some "Password must contain at least one number"
  else if !(d.password.data.any (fun c => specialCharacters.contains c)) then
    some "Password must contain at least one special character"
  else
    none

/-- Spec-side statement of the acceptance condition of user validation
(spec section 4.5), used for the refinement comparison with validateUser. -/
def validSpec (d : UserForm) : Prop :=
  d.name ≠ "" ∧ d.email ≠ "" ∧ d.password ≠ ""
    ∧ endsWithStr (lowerStr d.email) "@gmail.com" = true
    ∧ 8 ≤ d.password.data.length
    ∧ d.password.data.any Char.isUpper = true
    ∧ d.password.data.any Char.isDigit = true
    ∧ d.password.data.any (fun c => specialCharacters.contains c) = true

instance (d : UserForm) : Decidable (validSpec d) := by
  unfold validSpec
  infer_instance

/-! Concrete records used by the scenario parts of the claims and by the
witnesses. Field order: id, prNumber, description, cabinetId, shelfId,
folderId, status, urgencyLevel, dateAdded, stackNumber, borrowedBy, division,
borrowedDate, returnDate. -/

/-- Archived record of folder X added on day 1, no stack number. -/
def sampleDay1 : Procurement :=
  ⟨"r1", "PR1", "alpha", "c1", "s1", "X", "archived", "low", 1, none, none, none, none, none⟩

/-- Archived record of folder X added on day 2, no stack number. -/
def sampleDay2 : Procurement :=
  ⟨"r2", "PR2", "beta", "c1", "s1", "X", "archived", "low", 2, none, none, none, none, none⟩

/-- Archived record of folder F about to be borrowed. -/
def rC2 : Procurement :=
  ⟨"b1", "PR3", "gamma", "c1", "s1", "F", "archived", "low", 0, none, none, none, none, none⟩

/-- Archived record used to exercise saveBorrowChanges. -/
def rC3 : Procurement :=
  ⟨"b2", "PR4", "delta", "c1", "s1", "F", "archived", "low", 0, none, none, none, none, none⟩

/-- Borrowed record used for the status-filter witness. -/
def recA5 : Procurement :=
  ⟨"a5", "PR5", "eps", "c1", "s1", "G", "active", "low", 4, none, some "x", some "y", some 9, none⟩

/-- Archived record used for the status-filter witness. -/
def recB5 : Procurement :=
  ⟨"a6", "PR6", "zeta", "c1", "s1", "G", "archived", "low", 5, some 1, none, none, none, none⟩

/-- Single record used for the pagination counterexample. -/
def recP6 : Procurement :=
  ⟨"p1", "PR7", "eta", "c1", "s1", "H", "archived", "low", 3, none, none, none, none, none⟩

/-- Record without a stack number, used for the stack-sort counterexample. -/
def rNoStack : Procurement :=
  ⟨"n1", "PR8", "theta", "c1", "s1", "G", "archived", "low", 5, none, none, none, none, none⟩

/-- Record whose stack number exceeds the 999 sentinel. -/
def rBigStack : Procurement :=
  ⟨"n2", "PR9", "iota", "c1", "s1", "G", "archived", "low", 6, some 1000, none, none, none, none⟩

/-- First of two records without stack numbers, for the stack-sort witness. -/
def rN1 : Procurement :=
  ⟨"n3", "PRa", "kappa", "c1", "s1", "G", "archived", "low", 7, none, none, none, none, none⟩

/-- Second of two records without stack numbers, for the stack-sort witness. -/
def rN2 : Procurement :=
  ⟨"n4", "PRb", "lambda", "c1", "s1", "G", "archived", "low", 8, none, none, none, none, none⟩

/-- Records with distinct dateAdded values, for the date-sort witness. -/
def rD1 : Procurement :=
  ⟨"d1", "PRc", "mu", "c1", "s1", "G", "archived", "low", 1, none, none, none, none, none⟩

/-- Later of the two date-sort witness records. -/
def rD2 : Procurement :=
  ⟨"d2", "PRd", "nu", "c1", "s1", "G", "archived", "low", 2, none, none, none, none, none⟩

/-- The primordial admin account. -/
def adminUser : User :=
  ⟨"1", "Admin", "admin@gmail.com", "pw", "admin", "active"⟩

/-- Empty filter criteria. -/
def emptyFilters : ProcurementFilters :=
  ⟨"", "", "", "", ""⟩

/-! Helper lemmas. -/

theorem keys_assignStackNumbers (l : List Procurement) (k : Nat) :
    (assignStackNumbers l k).map Prod.fst = l.map (fun p => p.id) := by
  induction l generalizing k with
  | nil => rfl
  | cons p rest ih => simp [assignStackNumbers, ih]

theorem lookup_isSome_iff (a : String) (l : List (String × Nat)) :
    (List.lookup a l).isSome = true ↔ a ∈ l.map Prod.fst := by
  induction l with
  | nil => simp [List.lookup]
  | cons hd tl ih =>
    obtain ⟨k, v⟩ := hd
    cases h : a == k with
    | true =>
      have hak : a = k := eq_of_beq h
      simp [List.lookup, h, hak]
    | false =>
      have hak : a ≠ k := by
        intro he
        rw [he] at h
        simp at h
      simp [List.lookup, h, ih, hak]

theorem lookup_assignStackNumbers (l : List Procurement)
    (hnd : (l.map (fun p => p.id)).Nodup) (k i : Nat) (h : i < l.length) :
    List.lookup (l.get ⟨i, h⟩).id (assignStackNumbers l k) = some (k + i) := by
  induction l generalizing k i with
  | nil => exact absurd h (Nat.not_lt_zero i)
  | cons p rest ih =>
    rw [List.map_cons, List.nodup_cons] at hnd
    cases i with
    | zero =>
      show List.lookup p.id ((p.id, k) :: assignStackNumbers rest (k + 1)) = some (k + 0)
      simp [List.lookup]
    | succ j =>
      have hj : j < rest.length := Nat.lt_of_succ_lt_succ h
      have hget : (p :: rest).get ⟨j + 1, h⟩ = rest.get ⟨j, hj⟩ := rfl
      have hne : (rest.get ⟨j, hj⟩).id ≠ p.id := by
        intro he
        exact hnd.1 (he ▸ List.mem_map_of_mem (fun q => q.id) (rest.get_mem j hj))
      have hbeq : ((rest.get ⟨j, hj⟩).id == p.id) = false := beq_eq_false_iff_ne.mpr hne
      rw [hget]
      show List.lookup (rest.get ⟨j, hj⟩).id
        ((p.id, k) :: assignStackNumbers rest (k + 1)) = some (k + (j + 1))
      simp only [List.lookup, hbeq]
      rw [ih hnd.2 (k + 1) j hj]
      congr 1
      omega

/-! Claim theorems. -/

/-- C1: calculateStackNumbers restricts the collection to the records of the
target folder with archived status, orders them by the comparator that uses
the stack numbers when both are set (and nonzero) and dateAdded otherwise, and
assigns position index + 1 in sorted order; the resulting map is defined for
exactly the archived-in-folder record ids; in the two-record scenario (days 1
and 2, no stack numbers) the day-1 record is mapped to 1 and the day-2 record
to 2. -/
theorem C1_calculateStackNumbers_spec :
    (∀ (procs : List Procurement) (fid id : String),
      (List.lookup id (calculateStackNumbers procs fid)).isSome = true ↔
        id ∈ (archivedInFolder procs fid).map (fun p => p.id))
    ∧ (∀ (procs : List Procurement) (fid : String),
        ((archivedInFolder procs fid).map (fun p => p.id)).Nodup →
        ∀ (i : Nat) (h : i < (sortedArchived procs fid).length),
          List.lookup ((sortedArchived procs fid).get ⟨i, h⟩).id
            (calculateStackNumbers procs fid) = some (i + 1))
    ∧ calculateStackNumbers [sampleDay2, sampleDay1] "X" = [("r1", 1), ("r2", 2)] := by
  refine ⟨?_, ?_, by decide⟩
  · intro procs fid id
    rw [calculateStackNumbers, lookup_isSome_iff, keys_assignStackNumbers]
    have hperm : List.Perm (sortedArchived procs fid) (archivedInFolder procs fid) :=
      List.perm_insertionSort _ _
    exact (hperm.map (fun p => p.id)).mem_iff
  · intro procs fid hnd i h
    have hperm : List.Perm (sortedArchived procs fid) (archivedInFolder procs fid) :=
      List.perm_insertionSort _ _
    have hnd2 : ((sortedArchived procs fid).map (fun p => p.id)).Nodup :=
      ((hperm.map (fun p => p.id)).nodup_iff).mpr hnd
    rw [calculateStackNumbers, lookup_assignStackNumbers _ hnd2 1 i h]
    congr 1
    omega

/-- C1 witness: in the concrete two-record folder the sorted head (the day-1
record) is mapped to position 1. -/
theorem C1_witness :
    (((archivedInFolder [sampleDay2, sampleDay1] "X").map (fun p => p.id)).Nodup)
    ∧ List.lookup ((sortedArchived [sampleDay2, sampleDay1] "X").get ⟨0, by decide⟩).id
        (calculateStackNumbers [sampleDay2, sampleDay1] "X") = some 1 :=
  ⟨by decide,
    C1_calculateStackNumbers_spec.2.1 [sampleDay2, sampleDay1] "X" (by decide) 0 (by decide)⟩

/-- C2: evaluation of the archived-to-borrowed transition at a one-record
store. The renumbering pass inside saveBorrowChanges reads the pre-transition
snapshot, in which the record still counts as archived, so instead of clearing
the stackNumber of the record that just became borrowed it writes position 1
into it: the final store holds a borrowed (status active) record with a
defined stackNumber, contradicting the claimed invariant. -/
theorem C2_borrowed_record_keeps_stackNumber :
    runBorrow [rC2] ⟨rC2, "X", "Y"⟩ 5 =
      [⟨"b1", "PR3", "gamma", "c1", "s1", "F", "active", "low", 0,
        some 1, some "X", some "Y", some 5, none⟩]
    ∧ ∃ p ∈ runBorrow [rC2] ⟨rC2, "X", "Y"⟩ 5,
        p.status = "active" ∧ p.stackNumber = some 1 := by
  refine ⟨by decide, ?_⟩
  decide

/-- C4: handleDeleteUser on an id that resolves to the primordial admin
account, and toggleStatus on that account, both surface an error and issue no
store call, whatever the confirmation answer. -/
theorem C4_primordialAdmin_protected :
    (∀ (users : List User) (id : String) (c : Bool) (u : User),
      users.find? (fun v => v.id == id) = some u →
      u.email = "admin@gmail.com" →
      (handleDeleteUser users id c).storeCall = none
        ∧ (handleDeleteUser users id c).toastError.isSome = true)
    ∧ (∀ u : User, u.email = "admin@gmail.com" →
        (toggleStatus u).storeCall = none
          ∧ (toggleStatus u).toastError.isSome = true) := by
  constructor
  · intro users id c u hfind hemail
    simp [handleDeleteUser, hfind, hemail]
  · intro u hemail
    simp [toggleStatus, hemail]

/-- C4 witness: the concrete admin account is protected from deletion and
deactivation. -/
theorem C4_witness :
    (handleDeleteUser [adminUser] "1" true).storeCall = none
    ∧ (toggleStatus adminUser).storeCall = none :=
  ⟨(C4_primordialAdmin_protected.1 [adminUser] "1" true adminUser (by decide) rfl).1,
    (C4_primordialAdmin_protected.2 adminUser rfl).1⟩

/-- C6 counterexample: with one record and page size 20 the only valid page is
page 1; the displayed slice for page 2 is empty, not equal to the last valid
page. -/
theorem C6_counterexample :
    totalPages [recP6].length = 1
    ∧ paginatedProcurements [recP6] 2 = []
    ∧ paginatedProcurements [recP6] (totalPages [recP6].length) = [recP6]
    ∧ paginatedProcurements [recP6] 2 ≠
        paginatedProcurements [recP6] (totalPages [recP6].length) := by
  decide

/-- C6 amended: for a requested page beyond the last valid page the displayed
slice is empty (no clamping happens in the display path); only the Next
button clamps its target page to min(current + 1, totalPages). -/
theorem C6_outOfRange_page_is_empty :
    (∀ (l : List Procurement) (p : Nat),
      totalPages l.length < p → paginatedProcurements l p = [])
    ∧ (∀ cur total : Nat, nextPageClick cur total = min (cur + 1) total) := by
  refine ⟨?_, fun _ _ => rfl⟩
  intro l p h
  have hlen : l.length ≤ (p - 1) * itemsPerPage := by
    unfold totalPages itemsPerPage at *
    omega
  unfold paginatedProcurements
  rw [List.drop_eq_nil_of_le hlen]
  rfl

/-- C6 witness: page 2 of the one-record list is empty. -/
theorem C6_witness :
    totalPages [recP6].length < 2 ∧ paginatedProcurements [recP6] 2 = [] :=
  ⟨by decide, C6_outOfRange_page_is_empty.1 [recP6] 2 (by decide)⟩

/-- C8: for the dateAdded key the ascending direction puts the newer record
first and the descending direction the older record first, the inverse of the
smallest-first meaning that ascending has for the description and prNumber
keys. -/
theorem C8_date_ascending_newest_first :
    ∀ a b : Procurement,
      (dirComparison SortField.date SortDirection.asc a b < 0 ↔
        b.dateAdded < a.dateAdded)
      ∧ (dirComparison SortField.date SortDirection.desc a b < 0 ↔
        a.dateAdded < b.dateAdded)
      ∧ (dirComparison SortField.name SortDirection.asc a b < 0 ↔
        a.description < b.description)
      ∧ (dirComparison SortField.prNumber SortDirection.asc a b < 0 ↔
        a.prNumber < b.prNumber) := by
  intro a b
  refine ⟨?_, ?_, ?_, ?_⟩
  · simp only [dirComparison, fieldComparison]
    omega
  · simp only [dirComparison, fieldComparison]
    omega
  · simp only [dirComparison, fieldComparison, localeCompare]
    by_cases h1 : a.description < b.description
    · simp [h1]
    · by_cases h2 : b.description < a.description <;> simp [h1, h2]
  · simp only [dirComparison, fieldComparison, localeCompare]
    by_cases h1 : a.prNumber < b.prNumber
    · simp [h1]
    · by_cases h2 : b.prNumber < a.prNumber <;> simp [h1, h2]

/-- C8 witness: for two concrete records the later one compares before the
earlier one in the ascending date order. -/
theorem C8_witness :
    dirComparison SortField.date SortDirection.asc rD2 rD1 < 0 :=
  (C8_date_ascending_newest_first rD2 rD1).1.mpr (by decide)

theorem mem_updateStackWrites_stackOnly (snap : List Procurement) (fid : String) :
    ∀ w ∈ updateStackNumbersForFolder snap fid, stackOnlyWrite w := by
  intro w hw
  rcases List.mem_append.1 hw with h | h
  · obtain ⟨e, _, rfl⟩ := List.mem_map.1 h
    trivial
  · obtain ⟨p, _, rfl⟩ := List.mem_map.1 h
    trivial

theorem applyWrite_stackOnly (l : List Procurement) (w : ProcWrite)
    (hw : stackOnlyWrite w) (p : Procurement) (hp : p ∈ applyWrite l w) :
    ∃ q ∈ l, p.id = q.id ∧ p.status = q.status ∧ p.borrowedBy = q.borrowedBy
      ∧ p.division = q.division ∧ p.borrowedDate = q.borrowedDate := by
  cases w with
  | borrow i bb dv now => exact hw.elim
  | setStack i n =>
    simp only [applyWrite] at hp
    rcases List.mem_map.1 hp with ⟨q, hq, rfl⟩
    refine ⟨q, hq, ?_⟩
    by_cases h : q.id == i <;> simp [h]
  | clearStack i =>
    simp only [applyWrite] at hp
    rcases List.mem_map.1 hp with ⟨q, hq, rfl⟩
    refine ⟨q, hq, ?_⟩
    by_cases h : q.id == i <;> simp [h]

theorem foldl_stackOnly (ws : List ProcWrite) (hws : ∀ w ∈ ws, stackOnlyWrite w) :
    ∀ (l : List Procurement) (p : Procurement), p ∈ ws.foldl applyWrite l →
      ∃ q ∈ l, p.id = q.id ∧ p.status = q.status ∧ p.borrowedBy = q.borrowedBy
        ∧ p.division = q.division ∧ p.borrowedDate = q.borrowedDate := by
  induction ws with
  | nil =>
    intro l p hp
    exact ⟨p, hp, rfl, rfl, rfl, rfl, rfl⟩
  | cons w rest ih =>
    intro l p hp
    rw [List.foldl_cons] at hp
    obtain ⟨q, hq, e1, e2, e3, e4, e5⟩ :=
      ih (fun v hv => hws v (List.mem_cons_of_mem w hv)) (applyWrite l w) p hp
    obtain ⟨q2, hq2, f1, f2, f3, f4, f5⟩ :=
      applyWrite_stackOnly l w (hws w (List.mem_cons_self w rest)) q hq
    exact ⟨q2, hq2, e1.trans f1, e2.trans f2, e3.trans f3, e4.trans f4, e5.trans f5⟩

theorem applyWrite_borrow_fields (l : List Procurement) (i bb dv : String)
    (now : Nat) (q : Procurement)
    (hq : q ∈ applyWrite l (ProcWrite.borrow i bb dv now)) (hid : q.id = i) :
    q.status = "active" ∧ q.borrowedBy = some bb ∧ q.division = some dv
      ∧ q.borrowedDate = some now := by
  simp only [applyWrite] at hq
  rcases List.mem_map.1 hq with ⟨q0, hq0, rfl⟩
  by_cases h : q0.id == i
  · simp [h]
  · have hfalse : (q0.id == i) = false := by
      cases hb : q0.id == i
      · rfl
      · exact absurd hb h
    rw [if_neg h] at hid
    exact absurd hid (beq_eq_false_iff_ne.mp hfalse)

/-- C3: saveBorrowChanges with an empty borrowedBy or division rejects with
the validation message and issues no write, leaving the store untouched; with
both fields non-empty it issues the status write carrying the supplied
borrowedBy and division and borrowedDate = now, and in the final store the
transitioned record holds exactly those values. -/
theorem C3_saveBorrowChanges_validation :
    ∀ (snapshot : List Procurement) (m : BorrowEditModal) (now : Nat),
      ((m.borrowedBy = "" ∨ m.division = "") →
        saveBorrowChanges snapshot m now =
          Except.error "Please fill in all required fields"
        ∧ runBorrow snapshot m now = snapshot)
      ∧ (m.borrowedBy ≠ "" → m.division ≠ "" →
        saveBorrowChanges snapshot m now =
          Except.ok (ProcWrite.borrow m.procurement.id m.borrowedBy m.division now ::
            updateStackNumbersForFolder snapshot m.procurement.folderId)
        ∧ ∀ p ∈ runBorrow snapshot m now, p.id = m.procurement.id →
            p.status = "active" ∧ p.borrowedBy = some m.borrowedBy
              ∧ p.division = some m.division ∧ p.borrowedDate = some now) := by
  intro snapshot m now
  constructor
  · intro h
    have hcond : (m.borrowedBy == "" || m.division == "") = true := by
      rcases h with h | h <;> simp [h]
    constructor
    · simp [saveBorrowChanges, hcond]
    · simp [runBorrow, saveBorrowChanges, hcond]
  · intro h1 h2
    have hb : (m.borrowedBy == "") = false := beq_eq_false_iff_ne.mpr h1
    have hd : (m.division == "") = false := beq_eq_false_iff_ne.mpr h2
    have hsave : saveBorrowChanges snapshot m now =
        Except.ok (ProcWrite.borrow m.procurement.id m.borrowedBy m.division now ::
          updateStackNumbersForFolder snapshot m.procurement.folderId) := by
      simp [saveBorrowChanges, hb, hd]
    refine ⟨hsave, ?_⟩
    intro p hp hid
    have hrun : runBorrow snapshot m now =
        (updateStackNumbersForFolder snapshot m.procurement.folderId).foldl applyWrite
          (applyWrite snapshot
            (ProcWrite.borrow m.procurement.id m.borrowedBy m.division now)) := by
      unfold runBorrow
      rw [hsave]
      rfl
    rw [hrun] at hp
    obtain ⟨q, hq, e1, e2, e3, e4, e5⟩ :=
      foldl_stackOnly _ (mem_updateStackWrites_stackOnly snapshot m.procurement.folderId)
        _ p hp
    obtain ⟨f1, f2, f3, f4⟩ :=
      applyWrite_borrow_fields snapshot m.procurement.id m.borrowedBy m.division now q hq
        (e1 ▸ hid)
    exact ⟨e2.trans f1, e3.trans f2, e4.trans f3, e5.trans f4⟩

/-- C3 witness: at a one-record store the empty-division modal is rejected
with the validation message, and the completed transition leaves the record
with the supplied borrow fields. -/
theorem C3_witness :
    saveBorrowChanges [rC3] ⟨rC3, "", "Ops"⟩ 7 =
      Except.error "Please fill in all required fields"
    ∧ ∀ p ∈ runBorrow [rC3] ⟨rC3, "Bob", "Ops"⟩ 7, p.id = rC3.id →
        p.status = "active" ∧ p.borrowedBy = some "Bob"
          ∧ p.division = some "Ops" ∧ p.borrowedDate = some 7 :=
  ⟨((C3_saveBorrowChanges_validation [rC3] ⟨rC3, "", "Ops"⟩ 7).1 (Or.inl rfl)).1,
    ((C3_saveBorrowChanges_validation [rC3] ⟨rC3, "Bob", "Ops"⟩ 7).2
      (by decide) (by decide)).2⟩

/-- C5: with every record status being one of the two legal statuses, the
filter with an empty multi-select status set returns the same list as the
filter with both statuses selected: an empty set means no status filtering. -/
theorem C5_empty_status_filter :
    ∀ (procs : List Procurement) (f : ProcurementFilters) (field : SortField)
      (dir : SortDirection),
      (∀ p ∈ procs, p.status = "active" ∨ p.status = "archived") →
      filteredProcurements procs f [] field dir =
        filteredProcurements procs f ["active", "archived"] field dir := by
  intro procs f field dir h
  unfold filteredProcurements
  congr 1
  apply List.filter_congr
  intro p hp
  have hL : matchesStatus [] p = true := rfl
  have hR : matchesStatus ["active", "archived"] p = true := by
    unfold matchesStatus
    rcases h p hp with h1 | h1 <;> rw [h1] <;> decide
  unfold matchesFilters
  rw [hL, hR]

/-- C5 witness: the equality at a concrete two-record collection holding one
borrowed and one archived record. -/
theorem C5_witness :
    (∀ p ∈ [recA5, recB5], p.status = "active" ∨ p.status = "archived")
    ∧ filteredProcurements [recA5, recB5] emptyFilters [] SortField.date
        SortDirection.asc =
      filteredProcurements [recA5, recB5] emptyFilters ["active", "archived"]
        SortField.date SortDirection.asc :=
  ⟨by decide,
    C5_empty_status_filter [recA5, recB5] emptyFilters SortField.date SortDirection.asc
      (by decide)⟩

theorem stackLe_iff (a b : Procurement) :
    (dirComparison SortField.stackNumber SortDirection.asc a b ≤ 0) ↔
      stackKey a.stackNumber ≤ stackKey b.stackNumber := by
  show ((stackKey a.stackNumber : Int) - (stackKey b.stackNumber : Int) ≤ 0) ↔ _
  omega

/-- C7 counterexample: a record whose stackNumber is 1000 sorts after a record
without a stackNumber under the ascending stackNumber sort, because a missing
stackNumber is replaced by the sentinel 999 rather than being pushed past
every present value. -/
theorem C7_counterexample :
    rNoStack.stackNumber = none ∧ rBigStack.stackNumber = some 1000
    ∧ sortRecords SortField.stackNumber SortDirection.asc [rBigStack, rNoStack] =
        [rNoStack, rBigStack] := by
  decide

/-- C7 amended: the ascending stackNumber sort orders records by the key
(stackNumber if present and nonzero, else the sentinel 999); consequently,
when every stackNumber present in the collection lies strictly between 0 and
999, every record without a stackNumber is placed after every record that has
one. -/
theorem C7_stackSort_sentinel :
    ∀ l : List Procurement,
      List.Sorted (fun a b => stackKey a.stackNumber ≤ stackKey b.stackNumber)
        (sortRecords SortField.stackNumber SortDirection.asc l)
      ∧ ((∀ p ∈ l, ∀ s : Nat, p.stackNumber = some s → 0 < s ∧ s < 999) →
          ∀ (i j : Nat)
            (hi : i < (sortRecords SortField.stackNumber SortDirection.asc l).length)
            (hj : j < (sortRecords SortField.stackNumber SortDirection.asc l).length),
            i < j →
            ((sortRecords SortField.stackNumber SortDirection.asc l).get
              ⟨i, hi⟩).stackNumber = none →
            ((sortRecords SortField.stackNumber SortDirection.asc l).get
              ⟨j, hj⟩).stackNumber = none) := by
  intro l
  haveI : IsTotal Procurement
      (fun a b => dirComparison SortField.stackNumber SortDirection.asc a b ≤ 0) :=
    ⟨fun a b => by
      rw [stackLe_iff, stackLe_iff]
      omega⟩
  haveI : IsTrans Procurement
      (fun a b => dirComparison SortField.stackNumber SortDirection.asc a b ≤ 0) :=
    ⟨fun a b c hab hbc => by
      rw [stackLe_iff] at hab hbc ⊢
      omega⟩
  have hsorted0 : List.Sorted
      (fun a b => dirComparison SortField.stackNumber SortDirection.asc a b ≤ 0)
      (sortRecords SortField.stackNumber SortDirection.asc l) :=
    List.sorted_insertionSort _ l
  have hsorted : List.Sorted
      (fun a b => stackKey a.stackNumber ≤ stackKey b.stackNumber)
      (sortRecords SortField.stackNumber SortDirection.asc l) :=
    hsorted0.imp (fun h => (stackLe_iff _ _).1 h)
  refine ⟨hsorted, ?_⟩
  intro hlt i j hi hj hij hnone
  have hrel := List.pairwise_iff_get.1 hsorted ⟨i, hi⟩ ⟨j, hj⟩ hij
  have hmem : (sortRecords SortField.stackNumber SortDirection.asc l).get ⟨j, hj⟩ ∈ l :=
    (List.perm_insertionSort _ l).subset (List.get_mem _ _ _)
  cases hj2 : ((sortRecords SortField.stackNumber SortDirection.asc l).get
      ⟨j, hj⟩).stackNumber with
  | none => rfl
  | some s =>
    obtain ⟨hs0, hs999⟩ := hlt _ hmem s hj2
    rw [hnone, hj2] at hrel
    have hz : (s == 0) = false :=
      beq_eq_false_iff_ne.mpr (Nat.pos_iff_ne_zero.mp hs0)
    simp [stackKey, hz] at hrel
    exact absurd hs999 (by omega)

/-- C7 witness: with two records lacking stack numbers, the record following a
no-stackNumber record in the sorted output also lacks one. -/
theorem C7_witness :
    (∀ p ∈ [rN1, rN2], ∀ s : Nat, p.stackNumber = some s → 0 < s ∧ s < 999)
    ∧ ((sortRecords SortField.stackNumber SortDirection.asc [rN1, rN2]).get
        ⟨1, by decide⟩).stackNumber = none :=
  ⟨by simp [rN1, rN2], (C7_stackSort_sentinel [rN1, rN2]).2
    (by simp [rN1, rN2]) 0 1 (by decide) (by decide) (by decide) (by decide)⟩

/-- C9: validateUser accepts exactly when the name, email and password are
non-empty, the lowercased email ends with @gmail.com, and the password is at
least 8 characters long and contains an uppercase letter, a digit and a
character from the fixed punctuation set; any violation surfaces a message;
a@other.com is rejected and Valid1!@gmail.com with Abc12345! is accepted. -/
theorem C9_validateUser_spec :
    (∀ d : UserForm, validateUser d = none ↔ validSpec d)
    ∧ (∀ d : UserForm, ¬ validSpec d → (validateUser d).isSome = true)
    ∧ (validateUser ⟨"u", "a@other.com", "Abc12345!"⟩).isSome = true
    ∧ validateUser ⟨"u", "Valid1!@gmail.com", "Abc12345!"⟩ = none := by
  have hiff : ∀ d : UserForm, validateUser d = none ↔ validSpec d := by
    intro d
    unfold validateUser validSpec
    split_ifs with h1 h2 h3 h4 h5 h6
    · rcases (by simpa using h1 : (d.name = "" ∨ d.email = "") ∨ d.password = "") with
        (h | h) | h <;> simp [h]
    · have he : endsWithStr (lowerStr d.email) "@gmail.com" = false := by simpa using h2
      simp [he]
    · exact iff_of_false (by simp) (fun hr => absurd hr.2.2.2.2.1 (by omega))
    · have ha : d.password.data.any Char.isUpper = false := by simpa using h4
      exact iff_of_false (by simp) (fun hr => by simp [ha] at hr)
    · have ha : d.password.data.any Char.isDigit = false := by simpa using h5
      exact iff_of_false (by simp) (fun hr => by simp [ha] at hr)
    · have ha : d.password.data.any (fun c => specialCharacters.contains c) = false := by
        simpa using h6
      exact iff_of_false (by simp)
        (fun hr => absurd hr.2.2.2.2.2.2.2 (by rw [ha]; exact Bool.false_ne_true))
    · refine iff_of_true rfl ?_
      have h1' : ¬((d.name = "" ∨ d.email = "") ∨ d.password = "") := by simpa using h1
      have h2' : endsWithStr (lowerStr d.email) "@gmail.com" = true := by simpa using h2
      have h3' : 8 ≤ d.password.data.length := by omega
      have h4' : d.password.data.any Char.isUpper = true := by simpa using h4
      have h5' : d.password.data.any Char.isDigit = true := by simpa using h5
      have h6' : d.password.data.any (fun c => specialCharacters.contains c) = true := by
        simpa using h6
      push_neg at h1'
      exact ⟨h1'.1.1, h1'.1.2, h1'.2, h2', h3', h4', h5', h6'⟩
  refine ⟨hiff, ?_, by decide, by decide⟩
  intro d hnot
  cases hv : validateUser d with
  | none => exact absurd ((hiff d).mp hv) hnot
  | some msg => rfl

/-- C9 witness: a concrete form meeting the acceptance condition is accepted
by validateUser. -/
theorem C9_witness :
    validateUser ⟨"n", "e@gmail.com", "Abcdef1!"⟩ = none :=
  (C9_validateUser_spec.1 ⟨"n", "e@gmail.com", "Abcdef1!"⟩).mpr (by decide)

/-- C10: the sentinel filter values all_cabinets, all_shelves and all_folders
make the corresponding location clause pass every record, so filtering with a
sentinel selected equals filtering with that criterion left empty. -/
theorem C10_sentinel_location_filters :
    ∀ (procs : List Procurement) (f : ProcurementFilters) (sf : List String)
      (field : SortField) (dir : SortDirection),
      (∀ p : Procurement,
        matchesCabinet { f with cabinetId := "all_cabinets" } p = true
        ∧ matchesShelf { f with shelfId := "all_shelves" } p = true
        ∧ matchesFolder { f with folderId := "all_folders" } p = true)
      ∧ filteredProcurements procs { f with cabinetId := "all_cabinets" } sf field dir
          = filteredProcurements procs { f with cabinetId := "" } sf field dir
      ∧ filteredProcurements procs { f with shelfId := "all_shelves" } sf field dir
          = filteredProcurements procs { f with shelfId := "" } sf field dir
      ∧ filteredProcurements procs { f with folderId := "all_folders" } sf field dir
          = filteredProcurements procs { f with folderId := "" } sf field dir := by
  intro procs f sf field dir
  refine ⟨?_, ?_, ?_, ?_⟩
  · intro p
    refine ⟨?_, ?_, ?_⟩ <;> simp [matchesCabinet, matchesShelf, matchesFolder]
  · unfold filteredProcurements
    congr 1
  · unfold filteredProcurements
    congr 1
  · unfold filteredProcurements
    congr 1

end FileAlloc
